import Mathlib

/-!
Verification of the server-side character registry of `path-to-power`
(src/server/game/game.js).  The definitions below are a shallow embedding of
the `CharacterManager` class: its in-memory character list, the (never
initialized) spatial grid index `locations`, and the `manage`, `remove`,
`move`, `kill`, `addToGrid`, `removeFromGrid`, `get` and `getLocationList`
operations.  Side effects (socket dispatches, room broadcasts, persistence
calls, item drops, reward payouts) are modelled as an explicit event trace;
collaborators that live outside the embedded file (socket manager, cooldown
manager, map manager, the `Character` object methods) are modelled from the
specification where noted.
-/

namespace PathToPower

/-- A reference to a character that is aiming at / targeting another one.
NPC contributors have no `user_id` (the JS value is `undefined`, modelled as
`none`); player contributors carry their id. -/
structure Locker where
  user_id : Option String
  name : String
deriving Repr, DecidableEq

/-- A map position: `location` field of a character (`{map, x, y}`). -/
structure Location where
  map : String
  x : Int
  y : Int
deriving Repr, DecidableEq

/-- The slice of the `Character` object that the registry operations read or
write.  `target` is the character's own outgoing aim (a user id), `targetedBy`
the set of lockers aiming at it; `dropCash`, `dropExp` and `inventory` feed the
dropped-loot bundle produced by `die()`. -/
structure Character where
  user_id : String
  name : String
  location : Location
  targetedBy : List Locker
  hidden : Bool
  target : Option String
  faction_id : Option String
  dropCash : Nat
  dropExp : Nat
  inventory : List String
deriving Repr, DecidableEq

/-- Modelled from the spec: a cooldown-ledger entry (section 4.2).
`cooldownManager.add` reserves an entry (`started = false`); the handle's
`start()` arms it.  The cooldown manager component is not part of the embedded
source file, so the ledger follows the spec contract: reservation and
activation are separate, and only a started, unexpired entry restricts. -/
structure CooldownEntry where
  user_id : String
  action : String
  started : Bool
  ticks : Nat
deriving Repr, DecidableEq

/-- Modelled from the spec: the map collaborator's `describe` record
(section 6): map id and respawn point. -/
structure MapInfo where
  id : String
  respawnX : Int
  respawnY : Int
deriving Repr, DecidableEq

/-- Modelled from the spec: the world collaborator (section 6).
`isValidLocation` answers from `validLocations`; `maps` backs
`mapManager.get`; `factions` backs the faction-manager lookup. -/
structure World where
  validLocations : List Location
  maps : List MapInfo
  factions : List String
deriving Repr, DecidableEq

/-- The spatial grid index `this.locations`: an association of string keys
`map_y_x` to the list of occupant character references. -/
abbrev GridIndex := List (String × List Character)

/-- The `CharacterManager` state.  The constructor initializes `characters`
but never `locations`, hence `locations : Option GridIndex` with `none`
standing for the JS `undefined`. -/
structure MState where
  characters : List Character
  locations : Option GridIndex
  cooldowns : List CooldownEntry
  world : World
  moveCooldownTicks : Nat
deriving Repr, DecidableEq

/-- Payloads of room dispatches (`LEFT_GRID`, `joinedGrid`,
`UPDATE_GROUND_ITEMS`). -/
inductive RoomPayload
  | leftGrid (user_id : String)
  | joinedGridDetails (name user_id : String)
  | groundItems (map : String) (x y : Int)
deriving Repr, DecidableEq

/-- The observable side effects of the registry operations: socket / user /
room / server dispatches, socket room membership changes, collaborator calls
(ability and skill loads, faction link and unlink, persistence saves, item
drops) and the per-contributor reward mutations of `kill`. -/
inductive GEvent
  | socketEvent (etype msg : String)
  | userEvent (user_id etype msg : String)
  | roomEvent (room etype msg : String) (exclude : List String)
  | roomDispatch (room : String) (payload : RoomPayload)
  | addOnlinePlayer (user_id name : String)
  | removeOnlinePlayer (user_id : String)
  | updateCharacter (user_id : String)
  | mapUpdate (user_id : String)
  | socketJoin (room : String)
  | socketLeave (room : String)
  | userLeaveRoom (user_id room : String)
  | userJoinRoom (user_id room : String)
  | abilityLoad (user_id : String)
  | skillLoad (user_id : String)
  | factionLink (faction_id user_id : String)
  | factionUnlink (faction_id user_id : String)
  | saveCharacter (user_id : String)
  | itemDrop (map : String) (x y : Int) (item : String)
  | cashAward (name : String) (user_id : Option String) (amount : Nat)
  | expAward (name : String) (user_id : Option String) (amount : Nat)
deriving Repr, DecidableEq

/-- The grid key `` `${map}_${y}_${x}` `` used by `addToGrid` and
`removeFromGrid`; by section 6 of the spec the room id returned by
`character.getLocationId()` has the same `map_y_x` format. -/
def locationKey (pos : Location) : String :=
  pos.map ++ "_" ++ toString pos.y ++ "_" ++ toString pos.x

/-- `this.locations[key]`: `none` when the cell was never created. -/
def lookupCell (idx : GridIndex) (key : String) : Option (List Character) :=
  (idx.find? (fun kv => kv.1 == key)).map Prod.snd

/-- Overwrite the contents of the cell at `key`. -/
def replaceCell (idx : GridIndex) (key : String) (cell : List Character) : GridIndex :=
  idx.map (fun kv => if kv.1 == key then (kv.1, cell) else kv)

/-- `CharacterManager.addToGrid` (game.js lines 774-788) given that
`this.locations` is an object: create the cell if unset, then push the
character unless a character with the same `user_id` is already in it. -/
def addToGrid (idx : GridIndex) (pos : Location) (c : Character) : GridIndex :=
  let key := locationKey pos
  let idx1 :=
    match lookupCell idx key with
    | some _ => idx
    | none => idx ++ [(key, [])]
  let cell := (lookupCell idx1 key).getD []
  if (cell.findIdx? (fun ch => ch.user_id == c.user_id)).isSome then idx1
  else replaceCell idx1 key (cell ++ [c])

/-- `CharacterManager.removeFromGrid` (game.js lines 735-748) given that
`this.locations` is an object: if the cell exists and contains a character
with the same `user_id`, splice it out; otherwise do nothing. -/
def removeFromGrid (idx : GridIndex) (pos : Location) (c : Character) : GridIndex :=
  let key := locationKey pos
  match lookupCell idx key with
  | none => idx
  | some cell =>
    match cell.findIdx? (fun ch => ch.user_id == c.user_id) with
    | none => idx
    | some i => replaceCell idx key (cell.eraseIdx i)

/-- Does the cell at `key` hold a character with this `user_id`?  (Helper for
stating the idempotence of the grid membership operations.) -/
def cellHas (idx : GridIndex) (key : String) (uid : String) : Bool :=
  match lookupCell idx key with
  | none => false
  | some cell => (cell.findIdx? (fun ch => ch.user_id == uid)).isSome

/-- The `CharacterManager` constructor (game.js lines 273-284): it sets
`this.characters = []` and never assigns `this.locations`. -/
def initManager (w : World) (mc : Nat) : MState :=
  { characters := [], locations := none, cooldowns := [], world := w,
    moveCooldownTicks := mc }

/-- Manager-level `addToGrid`: dereferences `this.locations`; on a manager
whose `locations` was never initialized this throws a `TypeError`. -/
def mAddToGrid (s : MState) (pos : Location) (c : Character) : Except String MState :=
  match s.locations with
  | none => Except.error "TypeError: this.locations is undefined"
  | some idx => Except.ok { s with locations := some (addToGrid idx pos c) }

/-- Manager-level `removeFromGrid`: same `this.locations` dereference. -/
def mRemoveFromGrid (s : MState) (pos : Location) (c : Character) : Except String MState :=
  match s.locations with
  | none => Except.error "TypeError: this.locations is undefined"
  | some idx => Except.ok { s with locations := some (removeFromGrid idx pos c) }

/-- `CharacterManager.get` (game.js lines 375-381): `null` for a falsy
user id, otherwise the first entry of `this.characters` with that id. -/
def get (s : MState) (user_id : String) : Option Character :=
  if user_id = "" then none
  else s.characters.find? (fun o => o.user_id == user_id)

/-- `CharacterManager.updateClient` (game.js lines 345-358): a no-op when the
user is not online, otherwise an `UPDATE_CHARACTER` dispatch to the user. -/
def updateClientEvents (s : MState) (user_id : String) : List GEvent :=
  match get s user_id with
  | none => []
  | some _ => [GEvent.updateCharacter user_id]

/-- `CharacterManager.dispatchUpdatePlayerList` (game.js lines 388-409). -/
def dispatchUpdatePlayerList (s : MState) (user_id : String) : List GEvent :=
  match get s user_id with
  | none => []
  | some c => [GEvent.addOnlinePlayer c.user_id c.name]

/-- `CharacterManager.remove` (game.js lines 485-513): no-op when the user is
not online; otherwise best-effort save, room farewell broadcast excluding the
character, `LEFT_GRID` dispatch, faction unlink, deletion of every entry with
this `user_id` from `this.characters`, and the online-list removal dispatch. -/
def remove (s : MState) (user_id : String) : MState × List GEvent :=
  match get s user_id with
  | none => (s, [])
  | some character =>
    let room := locationKey character.location
    let facEvents :=
      match character.faction_id with
      | some fid =>
        if s.world.factions.contains fid then [GEvent.factionUnlink fid character.user_id]
        else []
      | none => []
    let s1 := { s with characters := s.characters.filter (fun o => !(o.user_id == user_id)) }
    (s1,
      [GEvent.saveCharacter character.user_id,
       GEvent.roomEvent room "info"
         (character.name ++ " disappears into a nearby building") [character.user_id],
       GEvent.roomDispatch room (RoomPayload.leftGrid character.user_id)]
      ++ facEvents
      ++ [GEvent.removeOnlinePlayer user_id])

/-- Modelled from the spec: `Character#gridLock` (the `Character` object lives
outside the embedded file).  Called by `manage` to transfer each `targetedBy`
relation of the old session onto the incoming character: it records the locker
in the character's `targetedBy` set (section 4.1 and glossary). -/
def gridLock (c : Character) (user : Locker) : Character :=
  if c.targetedBy.contains user then c
  else { c with targetedBy := c.targetedBy ++ [user] }

/-- `CharacterManager.manage` (game.js lines 429-479).  `wasLoggedIn` is the
result of `socketManager.clearTimer(character.user_id)` (the socket manager is
outside the embedded file): `true` exactly when a disconnect timer for this
user was pending and has been cleared.  Only when `wasLoggedIn` **and** an
existing character is found does `manage` transfer `targetedBy` via `gridLock`
and remove the old session; it then loads abilities and skills, links the
faction, pushes the incoming character, updates the player list and announces
the character to its room, excluding the character itself. -/
def manage (s : MState) (character : Character) (wasLoggedIn : Bool) :
    MState × List GEvent :=
  let existing := s.characters.find? (fun o => o.user_id == character.user_id)
  let step :=
    match existing with
    | some ex =>
      if wasLoggedIn then
        let removed := remove s character.user_id
        (removed.1, ex.targetedBy.foldl gridLock character, removed.2)
      else (s, character, ([] : List GEvent))
    | none => (s, character, ([] : List GEvent))
  let s1 := step.1
  let c := step.2.1
  let evPre := step.2.2
  let facEvents :=
    match c.faction_id with
    | some fid =>
      if s1.world.factions.contains fid then [GEvent.factionLink fid c.user_id]
      else []
    | none => []
  let s2 := { s1 with characters := s1.characters ++ [c] }
  let room := locationKey c.location
  (s2,
    evPre
    ++ [GEvent.abilityLoad c.user_id, GEvent.skillLoad c.user_id]
    ++ facEvents
    ++ dispatchUpdatePlayerList s2 c.user_id
    ++ [GEvent.roomEvent room "info" (c.name ++ " emerges from a nearby building") [c.user_id],
        GEvent.roomDispatch room (RoomPayload.joinedGridDetails c.name c.user_id),
        GEvent.socketJoin room])

/-- `CharacterManager.getLocationList` (game.js lines 689-708), internal mode:
filter the live `characters` list by the `location` field (map plus, when a
grid is requested, y and x). -/
def getLocationList (s : MState) (map : String) (x y : Option Int) : List Character :=
  match x, y with
  | some xv, some yv =>
    s.characters.filter
      (fun o => o.location.map == map && o.location.y == yv && o.location.x == xv)
  | _, _ => s.characters.filter (fun o => o.location.map == map)

/-- `getLocationList` client-facing mode: strip to name and user id, hiding
hidden characters and the requesting user. -/
def getLocationListClient (s : MState) (map : String) (x y : Option Int)
    (ignore : String) : List (String × String) :=
  ((getLocationList s map x y).filter
      (fun o => !(o.user_id == ignore) && !o.hidden)).map
    (fun c => (c.name, c.user_id))

/-- How many grid-index cells contain a character with this user id (zero when
the index was never initialized). -/
def cellsContaining (locs : Option GridIndex) (uid : String) : Nat :=
  match locs with
  | none => 0
  | some idx => (idx.filter (fun kv => kv.2.any (fun c => c.user_id == uid))).length

/-- Modelled from the spec: `cooldownManager.ticksLeft` (section 4.2
`remaining`): the time left on a started entry for this character and action,
zero (falsy) when none is active. -/
def ticksLeft (s : MState) (user_id act : String) : Nat :=
  match s.cooldowns.find? (fun e => e.user_id == user_id && e.action == act && e.started) with
  | some e => e.ticks
  | none => 0

/-- The `MOVE_CHARACTER` payload `{grid: 'y'|'x', direction: 1|-1}`. -/
structure MoveAction where
  grid : String
  direction : Int
deriving Repr, DecidableEq

/-- `actionNewLocation[moveAction.grid] += moveAction.direction`
(game.js line 833). -/
def applyMove (loc : Location) (grid : String) (dir : Int) : Location :=
  if grid = "x" then { loc with x := loc.x + dir }
  else if grid = "y" then { loc with y := loc.y + dir }
  else loc

/-- The leave/enter compass names of game.js lines 844-863: the first
component is the direction broadcast to the old room ("leaves to the ..."),
the second the direction broadcast to the new room ("strolls in from
the ..."). -/
def directionNames (grid : String) (dir : Int) : Option (String × String) :=
  if grid = "y" then
    if dir = 1 then some ("South", "North") else some ("North", "South")
  else if grid = "x" then
    if dir = 1 then some ("East", "West") else some ("West", "East")
  else none

/-- Modelled from the spec: `mapManager.isValidLocation` (world collaborator,
section 6) returns the location when it is valid and an invalid marker
otherwise. -/
def isValidLocation (w : World) (map : String) (x y : Int) : Option Location :=
  if w.validLocations.contains ⟨map, x, y⟩ then some ⟨map, x, y⟩ else none

/-- Modelled from the spec: `mapManager.get` (world collaborator,
section 6 `describe`). -/
def mapGet (w : World) (id : String) : Option MapInfo :=
  w.maps.find? (fun m => m.id == id)

/-- Update the first character in the list with this `user_id` (JS mutates the
single shared object found by `get`). -/
def updateCharInList (chars : List Character) (uid : String)
    (f : Character → Character) : List Character :=
  match chars with
  | [] => []
  | c :: rest =>
    if c.user_id == uid then f c :: rest else c :: updateCharInList rest uid f

/-- Modelled from the spec: `Character#releaseTarget` (section 4.1: "release
the character's own outgoing target lock").  Clears the actor's `target` and
removes the actor from the target's `targetedBy` set. -/
def releaseTarget (s : MState) (actor_id : String) : MState :=
  match get s actor_id with
  | none => s
  | some c =>
    match c.target with
    | none => s
    | some tuid =>
      let chars1 := updateCharInList s.characters tuid
        (fun o => { o with targetedBy := o.targetedBy.filter (fun l => !(l.user_id == some actor_id)) })
      let chars2 := updateCharInList chars1 actor_id (fun o => { o with target := none })
      { s with characters := chars2 }

/-- Error message of game.js line 802. -/
def loginErrorMsg : String :=
  "You do not appear to be logged in any more. Please login again."

/-- Warning message of game.js line 815: lists by name every player in the
character's `targetedBy` set (JS `join(', ')`). -/
def lockedWarning (targets : List Locker) : String :=
  "You can\x27t move as the following players are aiming at you: " ++
    String.intercalate ", " (targets.map (fun o => o.name))

/-- Warning message of game.js line 820. -/
def hiddenWarning : String :=
  "You can\x27t move as long as you are hidden. type /unhide to come out of hiding."

/-- `CharacterManager.move` (game.js lines 796-905).  Validation order: the
session lookup, the `targetedBy` lock, the `hidden` flag, the move cooldown;
then a cooldown entry is reserved (`cooldownManager.add`, unstarted), the
destination is resolved, and an invalid destination returns with no event but
with the reserved entry left in the ledger.  A valid destination releases the
character's own aim, leaves the old room, broadcasts the directional leave
message, updates the location, broadcasts the directional enter message, joins
the new room, refreshes the mover's client and map view, and starts the
cooldown. -/
def move (s : MState) (socket_user_id : String) (act : MoveAction) :
    MState × List GEvent :=
  match get s socket_user_id with
  | none => (s, [GEvent.socketEvent "error" loginErrorMsg])
  | some character =>
    if !character.targetedBy.isEmpty then
      (s, [GEvent.socketEvent "warning" (lockedWarning character.targetedBy)])
    else if character.hidden then
      (s, [GEvent.socketEvent "warning" hiddenWarning])
    else if ticksLeft s character.user_id "move" ≠ 0 then
      (s, [])
    else
      let target := applyMove character.location act.grid act.direction
      match isValidLocation s.world target.map target.x target.y with
      | none =>
        ({ s with cooldowns :=
            s.cooldowns ++ [⟨character.user_id, "move", false, s.moveCooldownTicks⟩] }, [])
      | some newLocation =>
        let dirNames := directionNames act.grid act.direction
        let dOut := (dirNames.map Prod.fst).getD "undefined"
        let dIn := (dirNames.map Prod.snd).getD "undefined"
        let oldRoom := locationKey character.location
        let s1 := releaseTarget s character.user_id
        let movedChars := updateCharInList s1.characters character.user_id
          (fun o => { o with location := newLocation })
        let s2 := { s1 with characters := movedChars }
        let newRoom := locationKey newLocation
        let s3 := { s2 with cooldowns :=
          s2.cooldowns ++ [⟨character.user_id, "move", true, s2.moveCooldownTicks⟩] }
        (s3,
          [GEvent.socketLeave oldRoom,
           GEvent.roomEvent oldRoom "info"
             (character.name ++ " leaves to the " ++ dOut) [character.user_id],
           GEvent.roomDispatch oldRoom (RoomPayload.leftGrid character.user_id),
           GEvent.roomEvent newRoom "info"
             (character.name ++ " strolls in from the " ++ dIn) [character.user_id],
           GEvent.roomDispatch newRoom
             (RoomPayload.joinedGridDetails character.name character.user_id),
           GEvent.socketJoin newRoom]
          ++ updateClientEvents s2 character.user_id
          ++ [GEvent.mapUpdate character.user_id])

/-- The dropped-loot bundle returned by `Character#die`. -/
structure DroppedLoot where
  items : List String
  cash : Nat
  exp : Nat
  targetedBy : List Locker
deriving Repr, DecidableEq

/-- Modelled from the spec: `Character#die` (outside the embedded file)
computes the dropped items, cash and experience and the contributor set from
the dying character (sections 3 and 4.1); it resets the character in place and
does not relocate it (`kill` relocates explicitly). -/
def die (c : Character) : DroppedLoot :=
  { items := c.inventory, cash := c.dropCash, exp := c.dropExp,
    targetedBy := c.targetedBy }

/-- Modelled from the spec: the in-place reset `die()` performs on the
character (loot and locks released). -/
def dieReset (c : Character) : Character :=
  { c with inventory := [], targetedBy := [] }

/-- Killer notification message of game.js line 963. -/
def moneyFoundMsg (cash : Nat) (victimName : String) : String :=
  "You find " ++ toString cash ++ " money on " ++ victimName ++ " body."

/-- The body of the contributor loop in `kill` (game.js lines 950-959): every
contributor receives the cash split; only a contributor with a truthy
`user_id` receives the experience split and a client refresh. -/
def contributorRewards (s : MState) (cashReward expReward : Nat) (t : Locker) :
    List GEvent :=
  [GEvent.cashAward t.name t.user_id cashReward] ++
    (if t.user_id.getD "" = "" then []
     else [GEvent.expAward t.name t.user_id expReward]
          ++ updateClientEvents s (t.user_id.getD ""))

/-- The reward distribution of `kill` (game.js lines 947-959): integer floor
division of the dropped cash and experience by the contributor count. -/
def killRewardEvents (s : MState) (loot : DroppedLoot) : List GEvent :=
  let cashReward := loot.cash / loot.targetedBy.length
  let expReward := loot.exp / loot.targetedBy.length
  (loot.targetedBy.map (contributorRewards s cashReward expReward)).flatten

/-- `CharacterManager.kill` (game.js lines 913-988).  `get(user_id)` is
dereferenced without a null check, so a missing character throws before any
state change; a missing map record for the victim's current map likewise
throws.  Otherwise: die-transition, capture of the pre-death room, leave the
old room, relocate to the map's respawn point, drop the loot items at the old
location, split cash and experience among the contributors, notify a player
killer with the full dropped cash, refresh the old room's ground items,
announce the reappearance, join the new room, refresh the victim's client, and
return the pre-death room id. -/
def kill (s : MState) (user_id : String) (killer : Locker) :
    Except String (MState × List GEvent × String) :=
  match get s user_id with
  | none => Except.error "TypeError: cannot read location of null"
  | some character =>
    match mapGet s.world character.location.map with
    | none => Except.error "TypeError: cannot read id of undefined"
    | some gameMap =>
      let droppedLoot := die character
      let deadChars := updateCharInList s.characters character.user_id dieReset
      let s1 := { s with characters := deadChars }
      let oldLocationId := locationKey character.location
      let oldLocation := character.location
      let newLocation : Location :=
        { map := gameMap.id, x := gameMap.respawnX, y := gameMap.respawnY }
      let respawnChars := updateCharInList s1.characters character.user_id
        (fun o => { o with location := newLocation })
      let s2 := { s1 with characters := respawnChars }
      let newRoom := locationKey newLocation
      let dropEvents := droppedLoot.items.map
        (fun it => GEvent.itemDrop oldLocation.map oldLocation.x oldLocation.y it)
      let killerNote :=
        if killer.user_id.getD "" = "" then []
        else [GEvent.userEvent (killer.user_id.getD "") "info"
               (moneyFoundMsg droppedLoot.cash character.name)]
      Except.ok (s2,
        [GEvent.userLeaveRoom character.user_id oldLocationId,
         GEvent.roomDispatch oldLocationId (RoomPayload.leftGrid character.user_id)]
        ++ dropEvents
        ++ killRewardEvents s2 droppedLoot
        ++ killerNote
        ++ [GEvent.roomDispatch oldLocationId
              (RoomPayload.groundItems oldLocation.map oldLocation.x oldLocation.y),
            GEvent.roomDispatch newRoom
              (RoomPayload.joinedGridDetails character.name character.user_id),
            GEvent.userJoinRoom character.user_id newRoom]
        ++ updateClientEvents s2 character.user_id
        ++ [GEvent.mapUpdate character.user_id],
        oldLocationId)

/-- The event trace of `kill`, empty when `kill` throws. -/
def killEvents (s : MState) (user_id : String) (killer : Locker) : List GEvent :=
  match kill s user_id killer with
  | Except.ok r => r.2.1
  | Except.error _ => []

/-- `true` unless the event is an experience update addressed to a contributor
without a truthy user id (which `kill` never issues). -/
def noExpForNonPlayers : GEvent → Bool
  | GEvent.expAward _ uidOpt _ => !(uidOpt.getD "" == "")
  | _ => true

/-- Is the event a user-facing socket error or warning? -/
def isUserFacingSocketEvent : GEvent → Bool
  | GEvent.socketEvent t _ => t == "error" || t == "warning"
  | _ => false

/-- The pre-destination validation of `move` fails: no session, locked,
hidden, or move cooldown active. -/
def preDestRejected (s : MState) (uid : String) : Bool :=
  match get s uid with
  | none => true
  | some c => !c.targetedBy.isEmpty || c.hidden || ticksLeft s c.user_id "move" != 0

/-- The pre-destination validation of `move` fails at the cooldown check and
only there (session found, unlocked, not hidden, cooldown active). -/
def cooldownOnlyRejection (s : MState) (uid : String) : Bool :=
  match get s uid with
  | none => false
  | some c =>
    c.targetedBy.isEmpty && !c.hidden && (ticksLeft s c.user_id "move" != 0)

/-! Concrete fixtures used by the witnesses and counterexamples. -/

/-- A small world: the cells `city (5,5)` and `city (6,5)` are valid, the
`city` map respawns at `(2,3)`. -/
def w0 : World :=
  { validLocations := [⟨"city", 5, 5⟩, ⟨"city", 6, 5⟩],
    maps := [⟨"city", 2, 3⟩], factions := [] }

/-- A player locker. -/
def locker1 : Locker := { user_id := some "u9", name := "Bob" }

/-- An NPC locker (no user id). -/
def lockerNpc : Locker := { user_id := none, name := "Thug" }

/-- A plain online character at `city (5,5)`. -/
def ch1 : Character :=
  { user_id := "u1", name := "Alice", location := ⟨"city", 5, 5⟩,
    targetedBy := [], hidden := false, target := none, faction_id := none,
    dropCash := 101, dropExp := 40, inventory := ["knife"] }

/-- A second session object for the same user id as `ch1`. -/
def ch2 : Character := { ch1 with name := "Alice2" }

/-- A manager with `ch1` online (and `locations` still uninitialized). -/
def sMove : MState :=
  { characters := [ch1], locations := none, cooldowns := [], world := w0,
    moveCooldownTicks := 5 }

/-- Like `sMove` but with a started, unexpired move cooldown for `u1`. -/
def sCool : MState :=
  { sMove with cooldowns := [{ user_id := "u1", action := "move", started := true, ticks := 3 }] }

/-- `ch1` locked by a player and an NPC. -/
def chLocked : Character := { ch1 with targetedBy := [locker1, lockerNpc] }

/-- A manager with the locked character online. -/
def sLock : MState := { sMove with characters := [chLocked] }

/-- The old session of `u1`: locked by `locker1`. -/
def chOld : Character := { ch1 with targetedBy := [locker1] }

/-- A manager with the old session of `u1` online. -/
def sReplace : MState := { sMove with characters := [chOld] }

/-- A victim for the kill scenario: locked by a player and an NPC, carrying
101 dropped cash and 40 dropped experience. -/
def chVictim : Character :=
  { user_id := "u2", name := "Carol", location := ⟨"city", 5, 5⟩,
    targetedBy := [locker1, lockerNpc], hidden := false, target := none,
    faction_id := none, dropCash := 101, dropExp := 40, inventory := ["pistol"] }

/-- A manager with the victim online. -/
def sKill : MState := { sMove with characters := [chVictim] }

/-- A two-cell grid index for the idempotence witnesses. -/
def idx0 : GridIndex := [("city_5_5", [ch1]), ("city_5_6", [])]

/-- C9: the `CharacterManager` constructor initializes the `characters` list
but never the `locations` grid-index field, so on a fresh manager both
`addToGrid` and `removeFromGrid` dereference the undefined `this.locations`
and throw instead of performing the membership operation. -/
theorem fresh_manager_grid_ops_throw (w : World) (mc : Nat) (pos : Location)
    (c : Character) :
    (initManager w mc).characters = [] ∧
    (initManager w mc).locations = none ∧
    mAddToGrid (initManager w mc) pos c
      = Except.error "TypeError: this.locations is undefined" ∧
    mRemoveFromGrid (initManager w mc) pos c
      = Except.error "TypeError: this.locations is undefined" :=
  ⟨rfl, rfl, rfl, rfl⟩

/-- C10: `kill` dereferences the result of `get(user_id)` without a null
check, so for every user id with no online character it throws before
mutating any state. -/
theorem kill_null_dereference_when_absent (s : MState) (uid : String)
    (killer : Locker) (h : get s uid = none) :
    kill s uid killer = Except.error "TypeError: cannot read location of null" := by
  unfold kill
  rw [h]

/-- Witness for C10: killing the offline user `u2` throws. -/
theorem kill_null_dereference_witness :
    kill sMove "u2" locker1 = Except.error "TypeError: cannot read location of null" :=
  kill_null_dereference_when_absent sMove "u2" locker1 (by decide)

/-- C8: on the cell keyed by `map_y_x`, `addToGrid` with a character already
present leaves the index unchanged, and `removeFromGrid` for a character
absent from the cell (or for a cell that does not exist) leaves the index
unchanged. -/
theorem grid_membership_ops_idempotent (idx : GridIndex) (pos : Location)
    (c : Character) :
    (cellHas idx (locationKey pos) c.user_id = true → addToGrid idx pos c = idx) ∧
    (cellHas idx (locationKey pos) c.user_id = false → removeFromGrid idx pos c = idx) := by
  constructor
  · intro h
    unfold cellHas at h
    rcases hl : lookupCell idx (locationKey pos) with _ | cell
    · rw [hl] at h; dsimp only at h; simp at h
    · rw [hl] at h
      dsimp only at h
      rcases hf : cell.findIdx? (fun ch => ch.user_id == c.user_id) with _ | i
      · rw [hf] at h; simp at h
      · unfold addToGrid
        simp only [hl, Option.getD_some, hf, Option.isSome_some, if_true]
  · intro h
    unfold cellHas at h
    rcases hl : lookupCell idx (locationKey pos) with _ | cell
    · unfold removeFromGrid
      simp only [hl]
    · rw [hl] at h
      dsimp only at h
      rcases hf : cell.findIdx? (fun ch => ch.user_id == c.user_id) with _ | i
      · unfold removeFromGrid
        simp only [hl, hf]
      · rw [hf] at h; simp at h

/-- Witness for C8: `ch1` is already in cell `city_5_5` of `idx0`, so adding
it again is a no-op; the victim is absent from that cell, so removing it is a
no-op. -/
theorem grid_membership_ops_witness :
    addToGrid idx0 ⟨"city", 5, 5⟩ ch1 = idx0 ∧
    removeFromGrid idx0 ⟨"city", 5, 5⟩ chVictim = idx0 :=
  ⟨(grid_membership_ops_idempotent idx0 ⟨"city", 5, 5⟩ ch1).1 (by decide),
   (grid_membership_ops_idempotent idx0 ⟨"city", 5, 5⟩ chVictim).2 (by decide)⟩

/-- C1 counterexample: managing a second session for `u1` while the first is
still registered but no disconnect timer was pending
(`socketManager.clearTimer` returned a falsy value, `wasLoggedIn = false`)
leaves two characters registered for `u1`: the claimed at-most-one-per-user_id
invariant fails on this load/manage sequence. -/
theorem duplicate_registration_on_unflagged_reconnect :
    (((manage (manage (initManager w0 5) ch1 false).1 ch2 false).1.characters.filter
        (fun o => o.user_id == "u1")).length) = 2 := by decide

/-- C2 counterexample: after `manage`, the character is registered online but
the spatial grid index contains it in zero cells, not exactly one — no
registry operation ever inserts into `this.locations`. -/
theorem managed_character_absent_from_grid_index :
    ((get (manage (initManager w0 5) ch1 false).1 "u1").isSome = true) ∧
    cellsContaining (manage (initManager w0 5) ch1 false).1.locations "u1" = 0 :=
  ⟨rfl, rfl⟩

/-- C3 counterexample: a move to an invalid destination (`city (4,5)`) emits
no event but leaves a reserved, unstarted cooldown entry in the ledger — the
cooldown ledger is mutated by a rejected move. -/
theorem invalid_destination_reserves_cooldown_entry :
    (move sMove "u1" { grid := "x", direction := -1 }).2 = [] ∧
    sMove.cooldowns = [] ∧
    (move sMove "u1" { grid := "x", direction := -1 }).1.cooldowns =
      [{ user_id := "u1", action := "move", started := false, ticks := 5 }] :=
  ⟨rfl, rfl, rfl⟩

/-- C4 counterexample: with the move cooldown still active, `move` performs no
state mutation but also surfaces no user-facing event at all — the
cooldown-active ValidationFailure is silent. -/
theorem cooldown_rejection_is_silent :
    move sCool "u1" { grid := "x", direction := 1 } = (sCool, []) := rfl

/-- C5: a character with a non-empty `targetedBy` set that calls `move` never
changes location — the state is returned untouched — and the only effect is a
warning event to the requesting socket whose message names every locking
player (joined with a comma). -/
theorem move_locked_no_location_change_names_lockers
    (s : MState) (uid : String) (act : MoveAction) (c : Character)
    (hget : get s uid = some c) (hlock : c.targetedBy ≠ []) :
    move s uid act
      = (s, [GEvent.socketEvent "warning" (lockedWarning c.targetedBy)]) := by
  unfold move
  rw [hget]
  have hne : c.targetedBy.isEmpty = false := by
    cases h : c.targetedBy with
    | nil => exact absurd h hlock
    | cons a l => rfl
  simp [hne]

/-- Witness for C5: `chLocked` is aimed at by Bob and Thug; its move is
rejected with the warning naming both, and the state is unchanged. -/
theorem move_locked_witness :
    move sLock "u1" { grid := "x", direction := 1 }
      = (sLock, [GEvent.socketEvent "warning" (lockedWarning [locker1, lockerNpc])]) :=
  move_locked_no_location_change_names_lockers sLock "u1"
    { grid := "x", direction := 1 } chLocked (by decide) (by decide)

/-- C3 amended: the four preconditions of `move` are checked before any
mutation, but destination resolution happens only after a cooldown entry has
been reserved; an invalid destination therefore emits no event and leaves
`characters` and `locations` untouched, yet the ledger retains the reserved,
unstarted cooldown entry. -/
theorem invalid_destination_silent_but_reserves_cooldown
    (s : MState) (uid : String) (act : MoveAction) (c : Character)
    (hget : get s uid = some c)
    (hlock : c.targetedBy = [])
    (hhid : c.hidden = false)
    (hcool : ticksLeft s c.user_id "move" = 0)
    (hdest : isValidLocation s.world (applyMove c.location act.grid act.direction).map
        (applyMove c.location act.grid act.direction).x
        (applyMove c.location act.grid act.direction).y = none) :
    move s uid act =
      ({ s with cooldowns :=
          s.cooldowns ++ [⟨c.user_id, "move", false, s.moveCooldownTicks⟩] }, []) := by
  unfold move
  rw [hget]
  simp [hlock, hhid, hcool, hdest]

/-- Witness for C3: Alice at `city (5,5)` moving x by -1 targets the invalid
cell `city (4,5)`; the move is silent but reserves an unstarted cooldown. -/
theorem invalid_destination_silent_witness :
    move sMove "u1" { grid := "x", direction := -1 } =
      ({ sMove with cooldowns := [⟨"u1", "move", false, 5⟩] }, []) :=
  invalid_destination_silent_but_reserves_cooldown sMove "u1"
    { grid := "x", direction := -1 } ch1 (by decide) rfl rfl rfl (by decide)

/-- C4 amended: every pre-destination ValidationFailure of `move` (not logged
in, locked by a target, hidden, cooldown active) performs no state mutation
and emits at most one event, which is always a user-facing socket error or
warning; the emitted trace is empty exactly in the cooldown-active case,
which is the one rejection that surfaces nothing to the client. -/
theorem move_validation_rejections_no_mutation
    (s : MState) (uid : String) (act : MoveAction)
    (h : preDestRejected s uid = true) :
    (move s uid act).1 = s ∧
    (move s uid act).2.all isUserFacingSocketEvent = true ∧
    (move s uid act).2.length ≤ 1 ∧
    ((move s uid act).2 = [] ↔ cooldownOnlyRejection s uid = true) := by
  unfold preDestRejected at h
  unfold cooldownOnlyRejection
  unfold move
  rcases hg : get s uid with _ | c
  · rw [hg] at h
    simp [isUserFacingSocketEvent]
  · rw [hg] at h
    dsimp only at h
    cases hemp : c.targetedBy.isEmpty with
    | false => simp [hemp, isUserFacingSocketEvent]
    | true =>
      rw [hemp] at h
      cases hh : c.hidden with
      | true => simp [hemp, hh, isUserFacingSocketEvent]
      | false =>
        rw [hh] at h
        simp only [Bool.not_true, Bool.false_or] at h
        have ht : ticksLeft s c.user_id "move" ≠ 0 := by
          simpa using h
        simp [hemp, hh, ht]

/-- Folding `gridLock` over a list of lockers never changes the character's
user id. -/
theorem foldl_gridLock_user_id (l : List Locker) (acc : Character) :
    (l.foldl gridLock acc).user_id = acc.user_id := by
  induction l generalizing acc with
  | nil => rfl
  | cons u rest ih =>
    rw [List.foldl_cons, ih]
    unfold gridLock
    split <;> rfl

/-- Membership in the `targetedBy` set after one `gridLock`. -/
theorem mem_gridLock (acc : Character) (u t : Locker) :
    t ∈ (gridLock acc u).targetedBy ↔ t ∈ acc.targetedBy ∨ t = u := by
  unfold gridLock
  split
  · rename_i hmem
    have hmem' : u ∈ acc.targetedBy := List.elem_iff.mp hmem
    constructor
    · exact fun h => Or.inl h
    · rintro (h | rfl)
      · exact h
      · exact hmem'
  · simp

/-- Membership in the `targetedBy` set after folding `gridLock` over a list of
lockers: exactly the old members plus the list. -/
theorem mem_foldl_gridLock (l : List Locker) (acc : Character) (t : Locker) :
    t ∈ (l.foldl gridLock acc).targetedBy ↔ t ∈ acc.targetedBy ∨ t ∈ l := by
  induction l generalizing acc with
  | nil => simp
  | cons u rest ih =>
    rw [List.foldl_cons, ih, mem_gridLock]
    simp [List.mem_cons]
    tauto

/-- Filtering for a user id after removing every character with that user id
yields nothing. -/
theorem filter_not_uid_then_uid (l : List Character) (uid : String) :
    (l.filter (fun o => !(o.user_id == uid))).filter (fun o => o.user_id == uid) = [] := by
  induction l with
  | nil => rfl
  | cons c rest ih =>
    by_cases h : c.user_id = uid
    · simp [List.filter_cons, h, ih]
    · simp [List.filter_cons, h, ih]

/-- C1 amended: when `manage(character)` is called while a prior session for
the same (non-empty) user id is still registered **and** the prior session's
disconnect timer was still pending (`socketManager.clearTimer` returned true,
`wasLoggedIn = true`), afterwards exactly one character for that user id
remains registered — the incoming one — and its `targetedBy` set holds
exactly the lockers carried over from the old session.  (Without the pending
disconnect timer the old entry is not removed; see the counterexample.) -/
theorem manage_replace_unique_and_carries_targetedBy
    (s : MState) (c ex : Character) (t : Locker)
    (hne : c.user_id ≠ "")
    (hex : s.characters.find? (fun o => o.user_id == c.user_id) = some ex)
    (hemp : c.targetedBy = []) :
    ((manage s c true).1.characters.filter (fun o => o.user_id == c.user_id))
        = [ex.targetedBy.foldl gridLock c] ∧
    (t ∈ (ex.targetedBy.foldl gridLock c).targetedBy ↔ t ∈ ex.targetedBy) := by
  have hget : get s c.user_id = some ex := by
    unfold get
    rw [if_neg hne, hex]
  constructor
  · unfold manage
    rw [hex]
    unfold remove
    rw [hget]
    have huid : (ex.targetedBy.foldl gridLock c).user_id = c.user_id :=
      foldl_gridLock_user_id _ _
    simp [List.filter_append, filter_not_uid_then_uid, List.filter_cons, huid]
  · rw [mem_foldl_gridLock, hemp]
    simp

/-- `remove` never touches the `locations` grid index. -/
theorem remove_preserves_grid (s : MState) (uid : String) :
    (remove s uid).1.locations = s.locations := by
  unfold remove
  cases get s uid <;> rfl

/-- `manage` never touches the `locations` grid index. -/
theorem manage_preserves_grid (s : MState) (c : Character) (w : Bool) :
    (manage s c w).1.locations = s.locations := by
  unfold manage
  cases s.characters.find? (fun o => o.user_id == c.user_id) with
  | none => rfl
  | some ex =>
    cases w with
    | false => rfl
    | true => simpa using remove_preserves_grid s c.user_id

/-- `releaseTarget` never touches the `locations` grid index. -/
theorem releaseTarget_preserves_grid (s : MState) (a : String) :
    (releaseTarget s a).locations = s.locations := by
  unfold releaseTarget
  rcases hga : get s a with _ | c
  · rfl
  · dsimp only
    rcases ht : c.target with _ | tuid
    · rfl
    · rfl

/-- `move` never touches the `locations` grid index. -/
theorem move_preserves_grid (s : MState) (uid : String) (act : MoveAction) :
    (move s uid act).1.locations = s.locations := by
  unfold move
  cases get s uid with
  | none => rfl
  | some c =>
    dsimp only
    split
    · rfl
    · split
      · rfl
      · split
        · rfl
        · split
          · rfl
          · simpa using releaseTarget_preserves_grid s c.user_id

/-- `kill` never touches the `locations` grid index (and a thrown `kill`
changes nothing at all). -/
theorem kill_preserves_grid (s : MState) (uid : String) (killer : Locker) :
    (match kill s uid killer with
     | Except.ok r => r.1.locations
     | Except.error _ => s.locations) = s.locations := by
  unfold kill
  rcases hg : get s uid with _ | c
  · rfl
  · dsimp only
    rcases hm : mapGet s.world c.location.map with _ | gm
    · rfl
    · rfl

/-- C2 amended: no registry operation (`manage`, `move`, `kill`, `remove`)
ever modifies the `locations` grid index — on a fresh manager it stays
uninitialized and never contains any character (see the counterexample).
Room occupancy is instead served by `getLocationList`, which filters the live
character list by the `location` field directly, so a character is in the
occupant view of exactly the one cell query equal to its current location —
that derived view cannot drift from the location field. -/
theorem registry_ops_preserve_grid_index_and_view_matches_location
    (s : MState) (c ch : Character) (w : Bool) (uid m : String) (x y : Int)
    (act : MoveAction) (killer : Locker) :
    (manage s c w).1.locations = s.locations ∧
    (remove s uid).1.locations = s.locations ∧
    (move s uid act).1.locations = s.locations ∧
    ((match kill s uid killer with
      | Except.ok r => r.1.locations
      | Except.error _ => s.locations) = s.locations) ∧
    (ch ∈ getLocationList s m (some x) (some y) ↔
      ch ∈ s.characters ∧ ch.location.map = m ∧ ch.location.y = y ∧ ch.location.x = x) := by
  refine ⟨manage_preserves_grid s c w, remove_preserves_grid s uid,
    move_preserves_grid s uid act, kill_preserves_grid s uid killer, ?_⟩
  unfold getLocationList
  simp [List.mem_filter, and_assoc]

/-- Witness for C1: replacing the old session of `u1` (locked by Bob) with a
fresh session object leaves exactly one registered `u1` character carrying
Bob as its locker. -/
theorem manage_replace_witness :
    ((manage sReplace ch2 true).1.characters.filter (fun o => o.user_id == ch2.user_id))
        = [chOld.targetedBy.foldl gridLock ch2] ∧
    (locker1 ∈ (chOld.targetedBy.foldl gridLock ch2).targetedBy
      ↔ locker1 ∈ chOld.targetedBy) :=
  manage_replace_unique_and_carries_targetedBy sReplace ch2 chOld locker1
    (by decide) (by decide) rfl

/-- Each contributor's reward block starts with the cash split, so every
member of the loot's `targetedBy` list receives it. -/
theorem cashAward_mem_killRewardEvents (s' : MState) (loot : DroppedLoot)
    (t : Locker) (ht : t ∈ loot.targetedBy) :
    GEvent.cashAward t.name t.user_id (loot.cash / loot.targetedBy.length)
      ∈ killRewardEvents s' loot := by
  unfold killRewardEvents
  rw [List.mem_flatten]
  refine ⟨contributorRewards s' (loot.cash / loot.targetedBy.length)
    (loot.exp / loot.targetedBy.length) t, List.mem_map_of_mem _ ht, ?_⟩
  unfold contributorRewards
  exact List.mem_append_left _ (List.mem_singleton_self _)

/-- `updateClient` only emits `UPDATE_CHARACTER` dispatches, never an
experience update. -/
theorem updateClientEvents_all_noExp (s : MState) (u : String) :
    (updateClientEvents s u).all noExpForNonPlayers = true := by
  unfold updateClientEvents
  rcases h : get s u with _ | c
  · rfl
  · rfl

/-- A contributor's reward block contains an experience update only when the
contributor has a truthy user id. -/
theorem contributorRewards_all_noExp (s : MState) (cr er : Nat) (t : Locker) :
    (contributorRewards s cr er t).all noExpForNonPlayers = true := by
  unfold contributorRewards
  by_cases h : t.user_id.getD "" = ""
  · simp [h, noExpForNonPlayers]
  · have hb : (t.user_id.getD "" == "") = false := beq_eq_false_iff_ne.mpr h
    simp [h, noExpForNonPlayers, hb, updateClientEvents_all_noExp]

/-- No experience update for a non-player ever enters the reward trace. -/
theorem killRewardEvents_all_noExp (s : MState) (loot : DroppedLoot) :
    (killRewardEvents s loot).all noExpForNonPlayers = true := by
  unfold killRewardEvents
  rw [List.all_eq_true]
  intro e he
  rw [List.mem_flatten] at he
  obtain ⟨sub, hsub, hesub⟩ := he
  rw [List.mem_map] at hsub
  obtain ⟨t, htmem, rfl⟩ := hsub
  have hall := contributorRewards_all_noExp s (loot.cash / loot.targetedBy.length)
    (loot.exp / loot.targetedBy.length) t
  rw [List.all_eq_true] at hall
  exact hall e hesub

/-- Item drops carry no experience update. -/
theorem map_itemDrop_all_noExp (l : List String) (m : String) (x y : Int) :
    ((l.map (fun it => GEvent.itemDrop m x y it)).all noExpForNonPlayers) = true := by
  rw [List.all_eq_true]
  intro e he
  rw [List.mem_map] at he
  obtain ⟨it, _, rfl⟩ := he
  rfl

/-- C7: in `kill`, with dropped cash `C` and `N` contributors in the victim's
`targetedBy` set, every contributor receives a cash award equal to
`floor(C / N)` (so the total awarded is at most `C`), no contributor without a
user id ever receives an experience update, and a killer with a user id is
notified with the full dropped cash amount `C`. -/
theorem kill_reward_split_floor_div
    (s : MState) (uid : String) (killer : Locker) (victim : Character)
    (gm : MapInfo) (t : Locker) (k : String)
    (hv : get s uid = some victim)
    (hm : mapGet s.world victim.location.map = some gm)
    (ht : t ∈ victim.targetedBy)
    (hk : killer.user_id = some k)
    (hkne : k ≠ "") :
    (GEvent.cashAward t.name t.user_id
        (victim.dropCash / victim.targetedBy.length) ∈ killEvents s uid killer) ∧
    (victim.targetedBy.length * (victim.dropCash / victim.targetedBy.length)
        ≤ victim.dropCash) ∧
    ((killEvents s uid killer).all noExpForNonPlayers = true) ∧
    (GEvent.userEvent k "info" (moneyFoundMsg victim.dropCash victim.name)
        ∈ killEvents s uid killer) := by
  refine ⟨?_, ?_, ?_, ?_⟩
  · unfold killEvents kill
    rw [hv]
    dsimp only
    rw [hm]
    dsimp only
    exact List.mem_append_left _ (List.mem_append_left _ (List.mem_append_left _
      (List.mem_append_left _ (List.mem_append_right _
        (cashAward_mem_killRewardEvents _ _ t (by simpa [die] using ht))))))
  · calc victim.targetedBy.length * (victim.dropCash / victim.targetedBy.length)
        = (victim.dropCash / victim.targetedBy.length) * victim.targetedBy.length :=
          Nat.mul_comm _ _
      _ ≤ victim.dropCash := Nat.div_mul_le_self _ _
  · unfold killEvents kill
    rw [hv]
    dsimp only
    rw [hm]
    dsimp only
    simp only [List.all_append, Bool.and_eq_true, List.all_cons, List.all_nil,
      Bool.and_true, and_true, true_and, map_itemDrop_all_noExp,
      killRewardEvents_all_noExp, updateClientEvents_all_noExp, noExpForNonPlayers]
    split
    · simp
    · simp [noExpForNonPlayers]
  · unfold killEvents kill
    rw [hv]
    dsimp only
    rw [hm]
    dsimp only
    simp only [hk, Option.getD_some, if_neg hkne]
    exact List.mem_append_left _ (List.mem_append_left _ (List.mem_append_left _
      (List.mem_append_right _ (List.mem_singleton_self _))))

/-- Updating the first entry with a given user id by a user_id-preserving
function: the lookup for that id returns the image of the previous first
match. -/
theorem find?_updateCharInList_self (chars : List Character) (uid : String)
    (f : Character → Character) (hf : ∀ o, (f o).user_id = o.user_id) :
    (updateCharInList chars uid f).find? (fun o => o.user_id == uid)
      = (chars.find? (fun o => o.user_id == uid)).map f := by
  induction chars with
  | nil => rfl
  | cons c rest ih =>
    unfold updateCharInList
    by_cases h : (c.user_id == uid) = true
    · simp only [h, if_true]
      rw [List.find?_cons, List.find?_cons]
      have hfc : ((f c).user_id == uid) = true := by rw [hf]; exact h
      simp [hfc, h]
    · have hb : (c.user_id == uid) = false := by simpa using h
      simp only [hb, Bool.false_eq_true, if_false]
      rw [List.find?_cons, List.find?_cons]
      simp [hb, ih]

/-- A user_id-preserving update of any entry does not change whether a lookup
succeeds. -/
theorem find?_isSome_updateCharInList (chars : List Character) (t uid : String)
    (f : Character → Character) (hf : ∀ o, (f o).user_id = o.user_id) :
    ((updateCharInList chars t f).find? (fun o => o.user_id == uid)).isSome
      = (chars.find? (fun o => o.user_id == uid)).isSome := by
  induction chars with
  | nil => rfl
  | cons c rest ih =>
    unfold updateCharInList
    by_cases h : (c.user_id == t) = true
    · simp only [h, if_true]
      rw [List.find?_cons, List.find?_cons]
      have hfc : ((f c).user_id == uid) = (c.user_id == uid) := by rw [hf]
      rw [hfc]
      cases hp : (c.user_id == uid) <;> simp
    · have hb : (c.user_id == t) = false := by simpa using h
      simp only [hb, Bool.false_eq_true, if_false]
      rw [List.find?_cons, List.find?_cons]
      cases hp : (c.user_id == uid) <;> simp [ih]

/-- `releaseTarget` keeps every character lookup succeeding or failing as
before. -/
theorem get_isSome_releaseTarget (s : MState) (a uid : String) :
    (get (releaseTarget s a) uid).isSome = (get s uid).isSome := by
  unfold releaseTarget
  rcases hga : get s a with _ | c
  · rfl
  · dsimp only
    rcases ht : c.target with _ | tuid
    · rfl
    · unfold get
      by_cases h : uid = ""
      · simp [h]
      · simp only [if_neg h]
        rw [find?_isSome_updateCharInList _ a uid
            (fun o => { o with target := none }) (fun o => rfl),
          find?_isSome_updateCharInList _ tuid uid
            (fun o => { o with targetedBy :=
              o.targetedBy.filter (fun l => !(l.user_id == some a)) })
            (fun o => rfl)]

/-- `updateClient` on an online user emits exactly the `UPDATE_CHARACTER`
dispatch. -/
theorem updateClientEvents_eq_of_isSome (s : MState) (u : String)
    (h : (get s u).isSome = true) :
    updateClientEvents s u = [GEvent.updateCharacter u] := by
  unfold updateClientEvents
  obtain ⟨o, ho⟩ := Option.isSome_iff_exists.mp h
  rw [ho]

/-- C6: for every successful `move`, the compass names follow the axis and
sign (y +1 = leaves South / enters from North, y -1 = North / South,
x +1 = East / West, x -1 = West / East), the mover's location field changes by
exactly the direction on the chosen axis, both room broadcasts exclude the
mover, and the mover receives its own updated state (`UPDATE_CHARACTER`) and
refreshed surroundings. -/
theorem move_success_directions_events_location
    (s : MState) (uid : String) (act : MoveAction) (c : Character) (dOut dIn : String)
    (hget : get s uid = some c)
    (hlock : c.targetedBy = [])
    (hhid : c.hidden = false)
    (hcool : ticksLeft s c.user_id "move" = 0)
    (hdir : directionNames act.grid act.direction = some (dOut, dIn))
    (hval : isValidLocation s.world (applyMove c.location act.grid act.direction).map
        (applyMove c.location act.grid act.direction).x
        (applyMove c.location act.grid act.direction).y
      = some (applyMove c.location act.grid act.direction)) :
    (directionNames "y" 1 = some ("South", "North") ∧
     directionNames "y" (-1) = some ("North", "South") ∧
     directionNames "x" 1 = some ("East", "West") ∧
     directionNames "x" (-1) = some ("West", "East")) ∧
    ((get (move s uid act).1 c.user_id).map Character.location
      = some (applyMove c.location act.grid act.direction)) ∧
    (act.grid = "x" → applyMove c.location act.grid act.direction
      = { c.location with x := c.location.x + act.direction }) ∧
    (act.grid = "y" → applyMove c.location act.grid act.direction
      = { c.location with y := c.location.y + act.direction }) ∧
    (move s uid act).2 =
      [GEvent.socketLeave (locationKey c.location),
       GEvent.roomEvent (locationKey c.location) "info"
         (c.name ++ " leaves to the " ++ dOut) [c.user_id],
       GEvent.roomDispatch (locationKey c.location) (RoomPayload.leftGrid c.user_id),
       GEvent.roomEvent (locationKey (applyMove c.location act.grid act.direction)) "info"
         (c.name ++ " strolls in from the " ++ dIn) [c.user_id],
       GEvent.roomDispatch (locationKey (applyMove c.location act.grid act.direction))
         (RoomPayload.joinedGridDetails c.name c.user_id),
       GEvent.socketJoin (locationKey (applyMove c.location act.grid act.direction)),
       GEvent.updateCharacter c.user_id,
       GEvent.mapUpdate c.user_id] := by
  have huid : c.user_id = uid := by
    unfold get at hget
    by_cases h : uid = ""
    · rw [if_pos h] at hget; cases hget
    · rw [if_neg h] at hget
      simpa using List.find?_some hget
  have hne : uid ≠ "" := by
    unfold get at hget
    by_cases h : uid = ""
    · rw [if_pos h] at hget; cases hget
    · exact h
  have hcne : c.user_id ≠ "" := by rw [huid]; exact hne
  have hsome : (get (releaseTarget s c.user_id) c.user_id).isSome = true := by
    rw [get_isSome_releaseTarget, huid, hget]
    rfl
  have hfind : ((releaseTarget s c.user_id).characters.find?
      (fun o => o.user_id == c.user_id)).isSome = true := by
    unfold get at hsome
    rw [if_neg hcne] at hsome
    exact hsome
  refine ⟨⟨rfl, rfl, rfl, rfl⟩, ?_, ?_, ?_, ?_⟩
  · unfold move
    rw [hget]
    dsimp only
    rw [if_neg (by simp [hlock]), if_neg (by simp [hhid]), if_neg (by simp [hcool]),
      hval]
    dsimp only
    unfold get
    rw [if_neg hcne]
    dsimp only
    rw [find?_updateCharInList_self _ c.user_id
        (fun o => { o with location := applyMove c.location act.grid act.direction })
        (fun o => rfl)]
    obtain ⟨o2, ho2⟩ := Option.isSome_iff_exists.mp hfind
    rw [ho2]
    rfl
  · intro hx
    simp [applyMove, hx]
  · intro hy
    simp [applyMove, hy]
  · unfold move
    rw [hget]
    dsimp only
    rw [if_neg (by simp [hlock]), if_neg (by simp [hhid]), if_neg (by simp [hcool]),
      hval]
    dsimp only
    rw [hdir]
    simp only [Option.map_some', Option.getD_some]
    rw [updateClientEvents_eq_of_isSome]
    · rfl
    · unfold get
      rw [if_neg hcne]
      dsimp only
      rw [find?_isSome_updateCharInList _ c.user_id c.user_id
          (fun o => { o with location := applyMove c.location act.grid act.direction })
          (fun o => rfl)]
      exact hfind

/-- Witness for C6: the spec scenario — Alice at `city (5,5)` moves
`x, direction 1` with no lock, not hidden and no cooldown; she ends at
`city (6,5)`, the old room hears "leaves to the East" and the new room
"strolls in from the West", both excluding Alice, and Alice receives her
updated state. -/
theorem move_success_witness :
    (directionNames "y" 1 = some ("South", "North") ∧
     directionNames "y" (-1) = some ("North", "South") ∧
     directionNames "x" 1 = some ("East", "West") ∧
     directionNames "x" (-1) = some ("West", "East")) ∧
    ((get (move sMove "u1" { grid := "x", direction := 1 }).1 ch1.user_id).map
        Character.location
      = some (applyMove ch1.location "x" 1)) ∧
    ("x" = "x" → applyMove ch1.location "x" 1
      = { ch1.location with x := ch1.location.x + 1 }) ∧
    ("x" = "y" → applyMove ch1.location "x" 1
      = { ch1.location with y := ch1.location.y + 1 }) ∧
    (move sMove "u1" { grid := "x", direction := 1 }).2 =
      [GEvent.socketLeave (locationKey ch1.location),
       GEvent.roomEvent (locationKey ch1.location) "info"
         (ch1.name ++ " leaves to the " ++ "East") [ch1.user_id],
       GEvent.roomDispatch (locationKey ch1.location) (RoomPayload.leftGrid ch1.user_id),
       GEvent.roomEvent (locationKey (applyMove ch1.location "x" 1)) "info"
         (ch1.name ++ " strolls in from the " ++ "West") [ch1.user_id],
       GEvent.roomDispatch (locationKey (applyMove ch1.location "x" 1))
         (RoomPayload.joinedGridDetails ch1.name ch1.user_id),
       GEvent.socketJoin (locationKey (applyMove ch1.location "x" 1)),
       GEvent.updateCharacter ch1.user_id,
       GEvent.mapUpdate ch1.user_id] :=
  move_success_directions_events_location sMove "u1" { grid := "x", direction := 1 }
    ch1 "East" "West" (by decide) rfl rfl rfl rfl (by decide)

/-- Witness for C7: the spec scenario — dropped cash 101, contributors Bob and
Thug, killer Bob — awards 50 to the NPC Thug (cash only) and notifies Bob
with the full 101. -/
theorem kill_reward_split_witness :
    (GEvent.cashAward lockerNpc.name lockerNpc.user_id
        (chVictim.dropCash / chVictim.targetedBy.length) ∈ killEvents sKill "u2" locker1) ∧
    (chVictim.targetedBy.length * (chVictim.dropCash / chVictim.targetedBy.length)
        ≤ chVictim.dropCash) ∧
    ((killEvents sKill "u2" locker1).all noExpForNonPlayers = true) ∧
    (GEvent.userEvent "u9" "info" (moneyFoundMsg chVictim.dropCash chVictim.name)
        ∈ killEvents sKill "u2" locker1) :=
  kill_reward_split_floor_div sKill "u2" locker1 chVictim ⟨"city", 2, 3⟩ lockerNpc "u9"
    (by decide) (by decide) (by decide) rfl (by decide)

/-- Witness for C4: the cooldown-active rejection of `sCool` mutates nothing
and emits nothing. -/
theorem move_validation_rejections_witness :
    (move sCool "u1" { grid := "x", direction := 1 }).1 = sCool ∧
    (move sCool "u1" { grid := "x", direction := 1 }).2.all isUserFacingSocketEvent = true ∧
    (move sCool "u1" { grid := "x", direction := 1 }).2.length ≤ 1 ∧
    ((move sCool "u1" { grid := "x", direction := 1 }).2 = []
      ↔ cooldownOnlyRejection sCool "u1" = true) :=
  move_validation_rejections_no_mutation sCool "u1" { grid := "x", direction := 1 }
    (by decide)

end PathToPower
